import Mathlib

/-!
Shallow embedding of the single-header arena allocator (src/arena.h),
in its ARENA_DEBUG build, on an LP64 platform: size_t and unsigned long
are 64 bits wide and ARENA_DEFAULT_ALIGNMENT = alignof(size_t) = 8
(arena.h lines 47-57).

The C heap is split into two pieces: the numeric value of the region
pointer (a natural number, 0 modelling NULL) and the bytes the region
holds (a function from byte offsets to byte values).  The two results of
malloc inside arena_create are oracle parameters.  size_t arithmetic is
modelled on Nat with an explicit reduction modulo 2 ^ 64 wherever the C
code can wrap.
-/

/-- Number of distinct size_t values: 2 ^ 64 = 18446744073709551616. -/
def W : Nat := 18446744073709551616

/-- ARENA_DEFAULT_ALIGNMENT (arena.h lines 55-57): alignof(size_t) = 8. -/
def ARENA_DEFAULT_ALIGNMENT : Nat := 8

/-- struct Arena_Allocation_s (arena.h lines 65-71) minus the next field:
the singly linked list built through next is modelled as a Lean list in
head-to-tail order. -/
structure Arena_Allocation where
  index : Nat
  size : Nat
  pointer : Nat
deriving DecidableEq

/-- struct Arena (arena.h lines 76-86, ARENA_DEBUG build).  region is the
numeric value of the char * pointer (0 modelling NULL); mem gives the byte
stored at each offset of the region. -/
structure Arena where
  region : Nat
  mem : Nat → Nat
  index : Nat
  size : Nat
  allocations : Nat
  head_allocation : List Arena_Allocation

/-- arena_create (arena.h lines 252-284).  arenaMallocOk tells whether the
malloc of the Arena struct succeeds; regionAddr is the address returned by
the malloc of the region (0 = NULL = failure); initMem is the arbitrary
junk the freshly malloced region holds. -/
def arena_create (arenaMallocOk : Bool) (regionAddr : Nat) (initMem : Nat → Nat)
    (size : Nat) : Option Arena :=
  if size = 0 then none
  else if arenaMallocOk = false then none
  else if regionAddr = 0 then none
  else some { region := regionAddr, mem := initMem, index := 0, size := size,
              allocations := 0, head_allocation := [] }

/-- The local variable offset of arena_alloc_aligned (arena.h lines
307-318): (size_t)(arena->region + arena->index) % alignment inside the
alignment != 0 branch, 0 in the else branch.  The value is below
alignment, hence below 2 ^ 32, so the store into the unsigned int does
not truncate. -/
def arena_offset (a : Arena) (alignment : Nat) : Nat :=
  if alignment ≠ 0 then ((a.region + a.index) % W) % alignment else 0

/-- The in-place update arena->index = arena->index - offset + alignment
performed by arena_alloc_aligned (arena.h lines 310-313) when offset > 0,
before the capacity check.  size_t subtraction and addition. -/
def arena_padded (a : Arena) (alignment : Nat) : Arena :=
  if 0 < arena_offset a alignment then
    { a with index := ((a.index + W - arena_offset a alignment) % W + alignment) % W }
  else a

/-- arena_add_allocation (arena.h lines 419-450): appends one record at
the tail of the list (the C code walks to the tail; the list is kept in
head-to-tail order, so the walk-to-tail append is a list append) and
increments the unsigned long counter.  The mallocs of the records are
assumed to succeed, as the C code itself does (it dereferences them
unchecked). -/
def arena_add_allocation (arena : Arena) (size : Nat) : Arena :=
  { arena with
    head_allocation := arena.head_allocation ++
      [{ index := arena.index, size := size,
         pointer := (arena.region + arena.index) % W }],
    allocations := (arena.allocations + 1) % W }

/-- arena_alloc_aligned (arena.h lines 293-331).  Returns the updated
arena (none iff the caller passed NULL) and the returned pointer value
(none for the C NULL result).  The capacity check on line 320 is the
size_t expression arena->size - (arena->index + offset), computed after
the index was already padded; it is modelled with the explicit + W ... % W
wraparound of unsigned subtraction. -/
def arena_alloc_aligned (arena : Option Arena) (size alignment : Nat) :
    Option Arena × Option Nat :=
  if size = 0 then (arena, none) else
  match arena with
  | none => (none, none)
  | some a =>
    if a.region = 0 then (some a, none) else
    if ((arena_padded a alignment).size + W -
        ((arena_padded a alignment).index + arena_offset a alignment) % W) % W < size then
      (some (arena_padded a alignment), none)
    else
      (some { arena_add_allocation (arena_padded a alignment) size with
              index := ((arena_padded a alignment).index + size) % W },
       some ((a.region + (((arena_padded a alignment).index + size) % W + W - size) % W) % W))

/-- arena_alloc (arena.h lines 287-290): arena_alloc_aligned with
ARENA_DEFAULT_ALIGNMENT. -/
def arena_alloc (arena : Option Arena) (size : Nat) : Option Arena × Option Nat :=
  arena_alloc_aligned arena size ARENA_DEFAULT_ALIGNMENT

/-- arena_copy (arena.h lines 334-356).  Returns the updated dest, the
(never written to) src, and the byte count.  The memcpy of bytes bytes
from the start of src->region to the start of dest->region becomes a
pointwise overwrite of the first bytes offsets of dest's memory. -/
def arena_copy (dest src : Option Arena) : Option Arena × Option Arena × Nat :=
  match dest, src with
  | none, s => (none, s, 0)
  | d, none => (d, none, 0)
  | some d, some s =>
    let bytes := if s.index < d.size then s.index else d.size
    (some { d with mem := fun i => if i < bytes then s.mem i else d.mem i,
                   index := bytes },
     some s, bytes)

/-- arena_delete_allocation_list (arena.h lines 453-469): frees every
record, leaving an empty list and a zero counter. -/
def arena_delete_allocation_list (arena : Arena) : Arena :=
  { arena with head_allocation := [], allocations := 0 }

/-- arena_clear (arena.h lines 359-371, ARENA_DEBUG build): no-op on
NULL, otherwise index = 0 and arena_delete_allocation_list. -/
def arena_clear (arena : Option Arena) : Option Arena :=
  match arena with
  | none => none
  | some a => some (arena_delete_allocation_list { a with index := 0 })

/-- One call against a given arena, for stating properties of call
sequences: the four mutating operations the claims quantify over. -/
inductive ArenaOp where
  | alloc (size : Nat)
  | allocAligned (size alignment : Nat)
  | copyFrom (src : Arena)
  | clear

/-- The arena state after one call (the returned pointer is dropped). -/
def runOp (a : Option Arena) (op : ArenaOp) : Option Arena :=
  match op with
  | ArenaOp.alloc sz => (arena_alloc a sz).1
  | ArenaOp.allocAligned sz al => (arena_alloc_aligned a sz al).1
  | ArenaOp.copyFrom s => (arena_copy a (some s)).1
  | ArenaOp.clear => arena_clear a

/-- The arena state after a sequence of calls. -/
def runOps (a : Option Arena) (ops : List ArenaOp) : Option Arena :=
  ops.foldl runOp a

/-- Whether a call sequence contains a clear. -/
def hasClear : List ArenaOp → Bool
  | [] => false
  | ArenaOp.clear :: _ => true
  | _ :: ops => hasClear ops

/-- 1 when the call is an allocation that succeeds (returns non-NULL)
against the given arena state, 0 otherwise. -/
def succ1 (a : Option Arena) : ArenaOp → Nat
  | ArenaOp.alloc sz => if (arena_alloc a sz).2.isSome then 1 else 0
  | ArenaOp.allocAligned sz al => if (arena_alloc_aligned a sz al).2.isSome then 1 else 0
  | ArenaOp.copyFrom _ => 0
  | ArenaOp.clear => 0

/-- How many calls of a sequence are allocations that succeed (return a
non-NULL pointer). -/
def countSuccess : Option Arena → List ArenaOp → Nat
  | _, [] => 0
  | a, op :: ops => succ1 a op + countSuccess (runOp a op) ops

/-- All-zero region contents, used for the concrete runs below. -/
def mem0 : Nat → Nat := fun _ => 0

/-- A freshly created arena of the given capacity whose region landed at
address 16 (a 16-byte aligned address, as produced by mainstream malloc
implementations). -/
def arena16 (cap : Nat) : Arena :=
  { region := 16, mem := mem0, index := 0, size := cap,
    allocations := 0, head_allocation := [] }

/-- The state of arena16 cap after one successful 1-byte default-aligned
allocation: cursor 1, one record (offset 0, size 1, address 16). -/
def arena16idx1 (cap : Nat) : Arena :=
  { region := 16, mem := mem0, index := 1, size := cap,
    allocations := 1, head_allocation := [⟨0, 1, 16⟩] }

/-- Concrete copy destination: region at 32, capacity 5, cursor 4. -/
def dw : Arena :=
  { region := 32, mem := mem0, index := 4, size := 5,
    allocations := 0, head_allocation := [] }

/-- Concrete copy source: region at 64 holding byte i+1 at offset i,
cursor 2, one record. -/
def sw : Arena :=
  { region := 64, mem := fun i => i + 1, index := 2, size := 8,
    allocations := 1, head_allocation := [⟨0, 2, 64⟩] }

/-- The result arena_copy produces for dest dw and source sw. -/
def d1w : Arena :=
  { region := 32, mem := fun i => if i < 2 then sw.mem i else dw.mem i,
    index := 2, size := 5, allocations := 0, head_allocation := [] }

/-- The allocation sizes 10, 15, 1 of the tracker example. -/
def c9ops : List ArenaOp :=
  [ArenaOp.alloc 10, ArenaOp.alloc 15, ArenaOp.alloc 1]

-- Scratch checks of the embedding against the repository's own test runs
-- (test.c, test_arena_alloc_aligned): capacity 64, aligned base, the
-- aligned allocations 8,3,12,3,1 with alignment 4 give the cursors
-- 8, 11, 24, 27, 29.
example :
    (runOps (some (arena16 64))
      [ArenaOp.allocAligned 8 4, ArenaOp.allocAligned 3 4,
       ArenaOp.allocAligned 12 4, ArenaOp.allocAligned 3 4,
       ArenaOp.allocAligned 1 4]).map Arena.index = some 29 := by
  decide

example : (arena_alloc_aligned (some (arena16 64)) 0 0).2 = none := by decide

/-! ### Basic facts about the padding step -/

lemma arena_offset_lt (a : Arena) (al : Nat) (hal : al ≠ 0) :
    arena_offset a al < al := by
  unfold arena_offset
  simp only [hal, ne_eq, not_false_eq_true, if_true]
  exact Nat.mod_lt _ (Nat.pos_of_ne_zero hal)

lemma arena_offset_mod (a : Arena) (al : Nat) (hdvd : al ∣ W) (hal : al ≠ 0) :
    arena_offset a al = (a.region + a.index) % al := by
  unfold arena_offset
  simp only [hal, ne_eq, not_false_eq_true, if_true]
  exact Nat.mod_mod_of_dvd _ hdvd

lemma padded_region (a : Arena) (al : Nat) : (arena_padded a al).region = a.region := by
  unfold arena_padded; split <;> rfl

lemma padded_mem (a : Arena) (al : Nat) : (arena_padded a al).mem = a.mem := by
  unfold arena_padded; split <;> rfl

lemma padded_size (a : Arena) (al : Nat) : (arena_padded a al).size = a.size := by
  unfold arena_padded; split <;> rfl

lemma padded_allocations (a : Arena) (al : Nat) :
    (arena_padded a al).allocations = a.allocations := by
  unfold arena_padded; split <;> rfl

lemma padded_head (a : Arena) (al : Nat) :
    (arena_padded a al).head_allocation = a.head_allocation := by
  unfold arena_padded; split <;> rfl

lemma padded_index_lt (a : Arena) (al : Nat) (hI : a.index < W) :
    (arena_padded a al).index < W := by
  unfold arena_padded
  split
  · exact Nat.mod_lt _ (by decide)
  · exact hI

/-- With enough headroom below 2 ^ 64, the padded cursor is the old
cursor plus the minimal padding (alignment - misalignment) mod alignment. -/
lemma padded_index_formula (a : Arena) (al : Nat) (hW : a.index + al < W) :
    (arena_padded a al).index = a.index + (al - arena_offset a al) % al := by
  unfold arena_padded
  split
  · next h0 =>
    have hal : al ≠ 0 := by
      intro h
      rw [h] at h0
      simp [arena_offset] at h0
    have holt : arena_offset a al < al := arena_offset_lt a al hal
    have hrw : (al - arena_offset a al) % al = al - arena_offset a al :=
      Nat.mod_eq_of_lt (by omega)
    rw [hrw]
    show ((a.index + W - arena_offset a al) % W + al) % W
        = a.index + (al - arena_offset a al)
    simp only [W] at hW ⊢
    omega
  · next h0 =>
    have h1 : arena_offset a al = 0 := by omega
    rw [h1]
    simp

/-- After padding, the absolute address region + cursor is a multiple of
the alignment (for an alignment dividing 2 ^ 64). -/
lemma padded_aligned (a : Arena) (al : Nat) (hdvd : al ∣ W) (hal : al ≠ 0) :
    (a.region + (arena_padded a al).index) % al = 0 := by
  have hoW : ∀ x : Nat, x % W % al = x % al := fun x => Nat.mod_mod_of_dvd x hdvd
  have hWmod : W % al = 0 := by
    obtain ⟨c, hc⟩ := hdvd
    simp [hc, Nat.mul_mod_right]
  have halW : al ≤ W := Nat.le_of_dvd (by decide) hdvd
  have ho : arena_offset a al = (a.region + a.index) % al := arena_offset_mod a al hdvd hal
  unfold arena_padded
  split
  · next h0 =>
    set R := a.region with hR
    set I := a.index with hI2
    set o := arena_offset a al with hodef
    have holt : o < al := arena_offset_lt a al hal
    have e1 : (I + W - o) % W ≡ I + W - o [MOD al] := hoW _
    have e2 : (I + W - o) % W + al ≡ I + W - o + al [MOD al] := Nat.ModEq.add_right al e1
    have e3 : ((I + W - o) % W + al) % W ≡ I + W - o + al [MOD al] := (hoW _).trans e2
    have e4 : R + ((I + W - o) % W + al) % W ≡ R + (I + W - o + al) [MOD al] :=
      Nat.ModEq.add_left R e3
    have hsum : R + (I + W - o + al) = R + I + W + al - o := by omega
    have e5 : (R + I + W + al) % al = o := by
      rw [Nat.add_mod_right, Nat.add_mod, hWmod, Nat.add_zero,
          Nat.mod_mod_of_dvd _ (dvd_refl al), ho]
    have e6 : (R + I + W + al - o) % al = 0 := by
      have hdm := Nat.div_add_mod (R + I + W + al) al
      rw [e5] at hdm
      have hx : R + I + W + al - o = al * ((R + I + W + al) / al) := by omega
      rw [hx, Nat.mul_mod_right]
    calc (R + ((I + W - o) % W + al) % W) % al
        = (R + (I + W - o + al)) % al := e4
      _ = (R + I + W + al - o) % al := by rw [hsum]
      _ = 0 := e6
  · next h0 =>
    have h1 : arena_offset a al = 0 := by omega
    rw [ho] at h1
    exact h1

/-! ### Characterization of arena_alloc_aligned -/

/-- Abbreviation for the size_t value of the capacity check
arena->size - (arena->index + offset) on arena.h line 320,
evaluated after the index has been padded in place. -/
def arena_check (a : Arena) (al : Nat) : Nat :=
  ((arena_padded a al).size + W -
    ((arena_padded a al).index + arena_offset a al) % W) % W

lemma alloc_aligned_eq_fail (a : Arena) (sz al : Nat) (hsz : sz ≠ 0)
    (hreg : a.region ≠ 0) (hc : arena_check a al < sz) :
    arena_alloc_aligned (some a) sz al = (some (arena_padded a al), none) := by
  unfold arena_alloc_aligned arena_check at *
  simp only [if_neg hsz, if_neg hreg, if_pos hc]

lemma alloc_aligned_eq_success (a : Arena) (sz al : Nat) (hsz : sz ≠ 0)
    (hreg : a.region ≠ 0) (hc : ¬ arena_check a al < sz) :
    arena_alloc_aligned (some a) sz al =
      (some { arena_add_allocation (arena_padded a al) sz with
              index := ((arena_padded a al).index + sz) % W },
       some ((a.region + (((arena_padded a al).index + sz) % W + W - sz) % W) % W)) := by
  unfold arena_alloc_aligned arena_check at *
  simp only [if_neg hsz, if_neg hreg, if_neg hc]

/-- A non-NULL result can only arise from the success branch. -/
lemma alloc_aligned_some_inv (a : Arena) (sz al : Nat) (p : Nat)
    (h : (arena_alloc_aligned (some a) sz al).2 = some p) :
    sz ≠ 0 ∧ a.region ≠ 0 ∧ ¬ arena_check a al < sz := by
  by_cases hsz : sz = 0
  · rw [show arena_alloc_aligned (some a) sz al = (some a, none) by
      unfold arena_alloc_aligned; simp [hsz]] at h
    simp at h
  · by_cases hreg : a.region = 0
    · rw [show arena_alloc_aligned (some a) sz al = (some a, none) by
        unfold arena_alloc_aligned; simp [hsz, hreg]] at h
      simp at h
    · by_cases hc : arena_check a al < sz
      · rw [alloc_aligned_eq_fail a sz al hsz hreg hc] at h
        simp at h
      · exact ⟨hsz, hreg, hc⟩

/-- The wrapped pointer arithmetic of the success branch collapses to the
padded cursor when the quantities are size_t representable. -/
lemma bump_sub (J sz : Nat) (hJ : J < W) (hsz : sz < W) :
    ((J + sz) % W + W - sz) % W = J := by
  simp only [W] at *
  omega

/-- Full success characterization: the returned pointer is the absolute
address of the padded cursor, the new cursor is padded cursor + size, a
record carrying exactly this allocation is appended at the tail, and the
counter steps by one. -/
lemma alloc_aligned_success_char (a : Arena) (sz al : Nat) (x : Option Arena) (p : Nat)
    (hI : a.index < W) (hszW : sz < W)
    (h : arena_alloc_aligned (some a) sz al = (x, some p)) :
    p = (a.region + (arena_padded a al).index) % W ∧
    x = some { a with
      index := ((arena_padded a al).index + sz) % W,
      allocations := (a.allocations + 1) % W,
      head_allocation := a.head_allocation ++
        [{ index := (arena_padded a al).index, size := sz,
           pointer := (a.region + (arena_padded a al).index) % W }] } ∧
    sz ≠ 0 ∧ a.region ≠ 0 ∧ ¬ arena_check a al < sz := by
  have hJ : (arena_padded a al).index < W := padded_index_lt a al hI
  obtain ⟨hsz, hreg, hc⟩ := alloc_aligned_some_inv a sz al p (by rw [h])
  rw [alloc_aligned_eq_success a sz al hsz hreg hc] at h
  rw [Prod.mk.injEq] at h
  obtain ⟨hx, hp⟩ := h
  constructor
  · rw [← Option.some_inj.mp hp, bump_sub ((arena_padded a al).index) sz hJ hszW]
  · refine ⟨?_, hsz, hreg, hc⟩
    rw [← hx]
    unfold arena_add_allocation
    simp only [padded_region, padded_mem, padded_size, padded_allocations, padded_head]

/-! ### Tracker bookkeeping of single calls and call sequences -/

/-- Any allocation call leaves the record list either unchanged (NULL
result) or extended at the tail by one record of the requested size
(non-NULL result), stepping the counter accordingly. -/
lemma alloc_aligned_tracker (a : Arena) (sz al : Nat) :
    ∃ a2, (arena_alloc_aligned (some a) sz al).1 = some a2 ∧
      (((arena_alloc_aligned (some a) sz al).2.isSome = false ∧
        a2.head_allocation = a.head_allocation ∧
        a2.allocations = a.allocations) ∨
       ((arena_alloc_aligned (some a) sz al).2.isSome = true ∧
        (∃ r, a2.head_allocation = a.head_allocation ++ [r] ∧
          Arena_Allocation.size r = sz) ∧
        a2.allocations = (a.allocations + 1) % W)) := by
  by_cases hsz : sz = 0
  · refine ⟨a, ?_, Or.inl ⟨?_, rfl, rfl⟩⟩ <;> simp [arena_alloc_aligned, hsz]
  · by_cases hreg : a.region = 0
    · refine ⟨a, ?_, Or.inl ⟨?_, rfl, rfl⟩⟩ <;> simp [arena_alloc_aligned, hsz, hreg]
    · by_cases hc : arena_check a al < sz
      · refine ⟨arena_padded a al, ?_, Or.inl ⟨?_, padded_head a al, padded_allocations a al⟩⟩ <;>
          simp [alloc_aligned_eq_fail a sz al hsz hreg hc]
      · rw [alloc_aligned_eq_success a sz al hsz hreg hc]
        refine ⟨_, rfl, Or.inr ⟨rfl,
          ⟨{ index := (arena_padded a al).index, size := sz,
             pointer := ((arena_padded a al).region + (arena_padded a al).index) % W },
           ?_, rfl⟩, ?_⟩⟩
        · show (arena_add_allocation (arena_padded a al) sz).head_allocation = _
          unfold arena_add_allocation
          simp [padded_head]
        · show (arena_add_allocation (arena_padded a al) sz).allocations = _
          unfold arena_add_allocation
          simp [padded_allocations]

/-- Calls against a live arena always return a live arena. -/
lemma runOp_some (a : Arena) (op : ArenaOp) : ∃ b, runOp (some a) op = some b := by
  cases op with
  | alloc sz =>
    obtain ⟨a2, h2, _⟩ := alloc_aligned_tracker a sz ARENA_DEFAULT_ALIGNMENT
    exact ⟨a2, h2⟩
  | allocAligned sz al =>
    obtain ⟨a2, h2, _⟩ := alloc_aligned_tracker a sz al
    exact ⟨a2, h2⟩
  | copyFrom s => exact ⟨_, rfl⟩
  | clear => exact ⟨_, rfl⟩

/-- One non-clear call appends 0 or 1 records, never removes or reorders,
and steps the counter in lockstep. -/
lemma runOp_step (op : ArenaOp) (a a2 : Arena) (hop : op ≠ ArenaOp.clear)
    (h : runOp (some a) op = some a2) :
    ∃ t, a2.head_allocation = a.head_allocation ++ t ∧
      t.length = succ1 (some a) op ∧
      ((t = [] ∧ a2.allocations = a.allocations) ∨
       (t.length = 1 ∧ a2.allocations = (a.allocations + 1) % W)) := by
  cases op with
  | alloc sz =>
    obtain ⟨b, hb, hcase⟩ := alloc_aligned_tracker a sz ARENA_DEFAULT_ALIGNMENT
    have hba : b = a2 := by
      have : (arena_alloc_aligned (some a) sz ARENA_DEFAULT_ALIGNMENT).1 = some a2 := h
      rw [hb] at this
      exact Option.some_inj.mp this
    subst hba
    rcases hcase with ⟨hns, hh, hal⟩ | ⟨hs, ⟨r, hh, _⟩, hal⟩
    · exact ⟨[], by simp [hh], by simp [succ1, arena_alloc, hns], Or.inl ⟨rfl, hal⟩⟩
    · exact ⟨[r], hh, by simp [succ1, arena_alloc, hs], Or.inr ⟨rfl, hal⟩⟩
  | allocAligned sz al =>
    obtain ⟨b, hb, hcase⟩ := alloc_aligned_tracker a sz al
    have hba : b = a2 := by
      have : (arena_alloc_aligned (some a) sz al).1 = some a2 := h
      rw [hb] at this
      exact Option.some_inj.mp this
    subst hba
    rcases hcase with ⟨hns, hh, hal⟩ | ⟨hs, ⟨r, hh, _⟩, hal⟩
    · exact ⟨[], by simp [hh], by simp [succ1, hns], Or.inl ⟨rfl, hal⟩⟩
    · exact ⟨[r], hh, by simp [succ1, hs], Or.inr ⟨rfl, hal⟩⟩
  | copyFrom s =>
    have h2 : a2 = { a with
        mem := fun i => if i < if s.index < a.size then s.index else a.size
          then s.mem i else a.mem i,
        index := if s.index < a.size then s.index else a.size } := by
      have : runOp (some a) (ArenaOp.copyFrom s) = some _ := rfl
      rw [this] at h
      exact (Option.some_inj.mp h).symm
    exact ⟨[], by simp [h2], by simp [succ1], Or.inl ⟨rfl, by simp [h2]⟩⟩
  | clear => exact absurd rfl hop

lemma runOps_cons (a : Option Arena) (op : ArenaOp) (ops : List ArenaOp) :
    runOps a (op :: ops) = runOps (runOp a op) ops := rfl

lemma countSuccess_cons (a : Option Arena) (op : ArenaOp) (ops : List ArenaOp) :
    countSuccess a (op :: ops) = succ1 a op + countSuccess (runOp a op) ops := rfl

lemma hasClear_cons_false (op : ArenaOp) (ops : List ArenaOp)
    (h : hasClear (op :: ops) = false) : op ≠ ArenaOp.clear ∧ hasClear ops = false := by
  cases op <;> simp [hasClear] at h ⊢ <;> exact h

/-- Over any clear-free call sequence against a live arena, the record
list only grows at the tail, by exactly one record per successful
allocation, and the unsigned long counter tracks the list length modulo
2 ^ 64. -/
lemma runOps_tracker (ops : List ArenaOp) :
    ∀ a a1 : Arena, hasClear ops = false → runOps (some a) ops = some a1 →
      (∃ t, a1.head_allocation = a.head_allocation ++ t ∧
        t.length = countSuccess (some a) ops) ∧
      (a.allocations = a.head_allocation.length % W →
        a1.allocations = a1.head_allocation.length % W) := by
  induction ops with
  | nil =>
    intro a a1 _ h
    have ha : a = a1 := Option.some_inj.mp h
    subst ha
    exact ⟨⟨[], by simp, by simp [countSuccess]⟩, fun hh => hh⟩
  | cons op ops ih =>
    intro a a1 hnc hrun
    obtain ⟨hop, hnc2⟩ := hasClear_cons_false op ops hnc
    obtain ⟨b, hb⟩ := runOp_some a op
    rw [runOps_cons, hb] at hrun
    obtain ⟨⟨t1, ht1, htl1⟩, hcounter⟩ := ih b a1 hnc2 hrun
    obtain ⟨t0, ht0, htl0, hcase⟩ := runOp_step op a b hop hb
    constructor
    · refine ⟨t0 ++ t1, by rw [ht1, ht0, List.append_assoc], ?_⟩
      rw [List.length_append, htl0, htl1]
      show _ = countSuccess (some a) (op :: ops)
      rw [countSuccess_cons, hb]
    · intro hinv
      apply hcounter
      rcases hcase with ⟨ht0e, hbal⟩ | ⟨hlen1, hbal⟩
      · subst ht0e
        rw [hbal, hinv, ht0]
        simp
      · rw [hbal, hinv, ht0]
        simp only [List.length_append, hlen1, W]
        omega

/-! ### Claim C1 -/

/-- C1: the claim that a capacity-exhausted allocation request returns
NULL and leaves the cursor unchanged is violated by the code.  On a fresh
capacity-10 arena whose region sits at the 8-aligned address 16,
arena_alloc(1) succeeds (cursor 1); the next arena_alloc(3) exceeds the
remaining capacity and returns NULL, but the cursor has been moved to the
padded position 8 (arena.h line 312 mutates arena->index before the
capacity check on line 320), not left at 1. -/
theorem arena_alloc_failure_mutates_cursor :
    arena_alloc (some (arena16 10)) 1 = (some (arena16idx1 10), some 16) ∧
    arena_alloc (some (arena16idx1 10)) 3 =
      (some { arena16idx1 10 with index := 8 }, none) ∧
    (8 : Nat) ≠ 1 :=
  ⟨rfl, rfl, by decide⟩

/-! ### Claim C2 -/

/-- C2: the invariant cursor ≤ capacity is violated by the code.  Create
an arena of capacity 8 (region at the 8-aligned address 16), allocate 1
byte (cursor 1), then request 8 more bytes: only 7 remain, but the size_t
expression arena->size - (arena->index + offset) on arena.h line 320
underflows (8 - (8 + 1) wraps around), the check passes, the allocation
returns the out-of-bounds address 24, and the cursor becomes 16 > 8. -/
theorem arena_cursor_exceeds_capacity :
    arena_create true 16 mem0 8 = some (arena16 8) ∧
    arena_alloc (some (arena16 8)) 1 = (some (arena16idx1 8), some 16) ∧
    arena_alloc (some (arena16idx1 8)) 8 =
      (some { region := 16, mem := mem0, index := 16, size := 8, allocations := 2,
              head_allocation := [⟨0, 1, 16⟩, ⟨8, 8, 24⟩] }, some 24) ∧
    ¬ ((16 : Nat) ≤ 8) :=
  ⟨rfl, rfl, rfl, by decide⟩

/-! ### Claim C3 -/

/-- C3: the claimed failure condition capacity - (cursor + padding) < size
does not match the code.  For the arena with region at 16, capacity 8 and
cursor 1, the call arena_alloc_aligned(4, 4) needs padding 3, and
capacity - (cursor + padding) = 8 - 4 = 4 is not < 4, so per the claim the
call must succeed; the code instead subtracts the misalignment offset a
second time (arena.h line 320: the index already contains the padding),
computes 8 - (4 + 1) = 3 < 4, returns NULL, and leaves the cursor padded
to 4. -/
theorem arena_alloc_aligned_wrong_fail_condition :
    ((4 : Nat) - arena_offset (arena16idx1 8) 4) % 4 = 3 ∧
    (arena16idx1 8).index + 3 + 4 ≤ (arena16idx1 8).size ∧
    ¬ ((arena16idx1 8).size - ((arena16idx1 8).index + 3) < 4) ∧
    arena_alloc_aligned (some (arena16idx1 8)) 4 4 =
      (some { arena16idx1 8 with index := 4 }, none) :=
  ⟨by decide, by decide, by decide, rfl⟩

/-! ### Claim C4 -/

/-- C4: for a power-of-two alignment, every non-NULL address returned by
arena_alloc_aligned is a multiple of the alignment; the padding is
computed against the absolute address region + cursor (arena.h line
309). -/
theorem arena_alloc_aligned_alignment_correct (a : Arena) (sz al k : Nat)
    (x : Option Arena) (p : Nat) (hI : a.index < W) (hszW : sz < W)
    (hal : al = 2 ^ k) (hk : k ≤ 32)
    (h : arena_alloc_aligned (some a) sz al = (x, some p)) :
    p % al = 0 := by
  have hal0 : al ≠ 0 := by simp [hal]
  have hW64 : W = 2 ^ 64 := by decide
  have hdvd : al ∣ W := by
    rw [hal, hW64]
    exact pow_dvd_pow 2 (by omega)
  obtain ⟨hp, -, -, -, -⟩ := alloc_aligned_success_char a sz al x p hI hszW h
  rw [hp, Nat.mod_mod_of_dvd _ hdvd]
  exact padded_aligned a al hdvd hal0

/-- Witness for C4 at a concrete successful call: alignment 8 = 2 ^ 3,
returned address 16. -/
theorem arena_alloc_aligned_alignment_correct_witness :
    arena_alloc_aligned (some (arena16 8)) 1 8 = (some (arena16idx1 8), some 16) ∧
    (16 : Nat) % 8 = 0 :=
  ⟨rfl, arena_alloc_aligned_alignment_correct (arena16 8) 1 8 3 (some (arena16idx1 8)) 16
    (by decide) (by decide) (by decide) (by decide) rfl⟩

/-! ### Claim C5 -/

/-- C5 counterexample: arena_alloc is not a plain bump of the cursor.
With region at 16, after a first 1-byte allocation (cursor 1), a
successful arena_alloc(8) returns address 24, not region + cursor = 17,
and moves the cursor to 16, not 1 + 8 = 9: arena_alloc delegates to
arena_alloc_aligned with ARENA_DEFAULT_ALIGNMENT = 8 (arena.h line 289),
so padding is inserted first. -/
theorem arena_alloc_not_plain_bump :
    arena_alloc (some (arena16 100)) 1 = (some (arena16idx1 100), some 16) ∧
    arena_alloc (some (arena16idx1 100)) 8 =
      (some { region := 16, mem := mem0, index := 16, size := 100, allocations := 2,
              head_allocation := [⟨0, 1, 16⟩, ⟨8, 8, 24⟩] }, some 24) ∧
    (24 : Nat) ≠ 16 + 1 ∧ (16 : Nat) ≠ 1 + 8 :=
  ⟨rfl, rfl, by decide, by decide⟩

/-- C5 (amended): a successful arena_alloc(arena, size) reserves the slice
starting at cursor + padding, where padding is the minimal amount that
aligns region + cursor to ARENA_DEFAULT_ALIGNMENT = 8: it advances the
cursor by exactly padding + size, returns the address
region + cursor + padding (which is 8-aligned, and no smaller padding
aligns it), and touches neither region, capacity nor contents.  When
region + cursor is already 8-aligned the padding is 0 and the original
claim holds. -/
theorem arena_alloc_default_aligned_spec (a : Arena) (sz : Nat) (a1 : Arena) (p : Nat)
    (hIW : a.index + ARENA_DEFAULT_ALIGNMENT + sz < W)
    (h : arena_alloc (some a) sz = (some a1, some p)) :
    a1.index = a.index +
      (ARENA_DEFAULT_ALIGNMENT - (a.region + a.index) % ARENA_DEFAULT_ALIGNMENT) %
        ARENA_DEFAULT_ALIGNMENT + sz ∧
    p = (a.region + a.index +
      (ARENA_DEFAULT_ALIGNMENT - (a.region + a.index) % ARENA_DEFAULT_ALIGNMENT) %
        ARENA_DEFAULT_ALIGNMENT) % W ∧
    p % ARENA_DEFAULT_ALIGNMENT = 0 ∧
    (∀ q, q < (ARENA_DEFAULT_ALIGNMENT - (a.region + a.index) % ARENA_DEFAULT_ALIGNMENT) %
        ARENA_DEFAULT_ALIGNMENT →
      (a.region + a.index + q) % ARENA_DEFAULT_ALIGNMENT ≠ 0) ∧
    a1.region = a.region ∧ a1.size = a.size ∧ a1.mem = a.mem := by
  have h8 : ARENA_DEFAULT_ALIGNMENT ∣ W := ⟨2305843009213693952, by decide⟩
  have h80 : ARENA_DEFAULT_ALIGNMENT ≠ 0 := by decide
  have hI : a.index < W := by
    simp only [W, ARENA_DEFAULT_ALIGNMENT] at hIW ⊢
    omega
  have hszW : sz < W := by
    simp only [W, ARENA_DEFAULT_ALIGNMENT] at hIW ⊢
    omega
  obtain ⟨hp, hx, -, -, -⟩ :=
    alloc_aligned_success_char a sz ARENA_DEFAULT_ALIGNMENT (some a1) p hI hszW h
  have ha1 := Option.some_inj.mp hx.symm
  have hJ : (arena_padded a ARENA_DEFAULT_ALIGNMENT).index
      = a.index + (ARENA_DEFAULT_ALIGNMENT - arena_offset a ARENA_DEFAULT_ALIGNMENT) %
          ARENA_DEFAULT_ALIGNMENT :=
    padded_index_formula a ARENA_DEFAULT_ALIGNMENT
      (by simp only [W, ARENA_DEFAULT_ALIGNMENT] at hIW ⊢; omega)
  have hoff : arena_offset a ARENA_DEFAULT_ALIGNMENT
      = (a.region + a.index) % ARENA_DEFAULT_ALIGNMENT :=
    arena_offset_mod a ARENA_DEFAULT_ALIGNMENT h8 h80
  have hpadlt : (ARENA_DEFAULT_ALIGNMENT - (a.region + a.index) % ARENA_DEFAULT_ALIGNMENT) %
      ARENA_DEFAULT_ALIGNMENT < ARENA_DEFAULT_ALIGNMENT := Nat.mod_lt _ (by decide)
  refine ⟨?_, ?_, ?_, ?_, ?_, ?_, ?_⟩
  · rw [← ha1]
    show ((arena_padded a ARENA_DEFAULT_ALIGNMENT).index + sz) % W = _
    rw [hJ, hoff]
    simp only [W, ARENA_DEFAULT_ALIGNMENT] at hIW hpadlt ⊢
    omega
  · rw [hp, hJ, hoff, Nat.add_assoc]
  · rw [hp, Nat.mod_mod_of_dvd _ h8]
    exact padded_aligned a ARENA_DEFAULT_ALIGNMENT h8 h80
  · intro q hq
    simp only [ARENA_DEFAULT_ALIGNMENT] at hq ⊢
    omega
  · rw [← ha1]
  · rw [← ha1]
  · rw [← ha1]

/-- Witness for the amended C5 at the concrete counterexample run: the
new cursor is 1 + 7 + 8 = 16 and the returned address 24 is 8-aligned. -/
theorem arena_alloc_default_aligned_spec_witness :
    ({ region := 16, mem := mem0, index := 16, size := 100, allocations := 2,
       head_allocation := [⟨0, 1, 16⟩, ⟨8, 8, 24⟩] } : Arena).index = 16 ∧
    (24 : Nat) % 8 = 0 := by
  have h := arena_alloc_default_aligned_spec (arena16idx1 100) 8
    { region := 16, mem := mem0, index := 16, size := 100, allocations := 2,
      head_allocation := [⟨0, 1, 16⟩, ⟨8, 8, 24⟩] } 24 (by decide) rfl
  exact ⟨by rw [h.1]; decide, h.2.2.1⟩

/-! ### Claim C6 -/

/-- C6: arena_copy(dest, src) returns min(src.cursor, dest.capacity),
copies exactly that many bytes from the start of src's region to the
start of dest's region (all other destination bytes untouched), sets
dest's cursor to that value, and with a NULL argument copies nothing and
returns 0. -/
theorem arena_copy_spec :
    (∀ s, arena_copy none s = (none, s, 0)) ∧
    (∀ d, arena_copy d none = (d, none, 0)) ∧
    (∀ d s : Arena, ∃ d1 : Arena,
      arena_copy (some d) (some s) = (some d1, some s, min s.index d.size) ∧
      d1.index = min s.index d.size ∧
      (∀ i, i < min s.index d.size → d1.mem i = s.mem i) ∧
      (∀ i, ¬ i < min s.index d.size → d1.mem i = d.mem i)) := by
  refine ⟨fun s => by cases s <;> rfl, fun d => by cases d <;> rfl, fun d s => ?_⟩
  have hbytes : (if s.index < d.size then s.index else d.size) = min s.index d.size := by
    rcases Nat.lt_or_ge s.index d.size with h | h
    · rw [if_pos h, Nat.min_eq_left (Nat.le_of_lt h)]
    · rw [if_neg (Nat.not_lt.mpr h), Nat.min_eq_right h]
  refine ⟨{ d with
    mem := fun i => if i < min s.index d.size then s.mem i else d.mem i,
    index := min s.index d.size }, ?_, rfl, ?_, ?_⟩
  · simp only [arena_copy]
    rw [hbytes]
  · intro i hi
    simp [hi]
  · intro i hi
    simp [hi]

/-- Witness for C6 at concrete arenas: 2 = min(2, 5) bytes are copied and
byte 0 of the destination now equals byte 0 of the source. -/
theorem arena_copy_spec_witness :
    ∃ d1 : Arena, arena_copy (some dw) (some sw) = (some d1, some sw, min sw.index dw.size) ∧
      d1.index = min sw.index dw.size ∧ d1.mem 0 = sw.mem 0 := by
  obtain ⟨d1, h1, h2, h3, h4⟩ := arena_copy_spec.2.2 dw sw
  exact ⟨d1, h1, h2, h3 0 (by decide)⟩

/-! ### Claim C7 -/

/-- C7: arena_clear always leaves cursor 0 and an empty tracker (without
touching region, capacity or contents), clearing twice equals clearing
once, and clearing a NULL arena is a no-op. -/
theorem arena_clear_spec :
    arena_clear none = none ∧
    (∀ a : Arena, arena_clear (some a) =
      some { a with index := 0, allocations := 0, head_allocation := [] }) ∧
    (∀ x : Option Arena, arena_clear (arena_clear x) = arena_clear x) := by
  refine ⟨rfl, fun a => rfl, fun x => ?_⟩
  cases x <;> rfl

/-! ### Claim C8 -/

/-- C8: arena_create(0) fails whatever the memory provider does, and
zero-size allocation requests fail against any arena (even NULL), leaving
the arena argument untouched. -/
theorem zero_size_requests_fail :
    (∀ (b : Bool) (r : Nat) (m : Nat → Nat), arena_create b r m 0 = none) ∧
    (∀ x : Option Arena, arena_alloc x 0 = (x, none)) ∧
    (∀ (x : Option Arena) (al : Nat), arena_alloc_aligned x 0 al = (x, none)) :=
  ⟨fun _ _ _ => rfl, fun _ => rfl, fun _ _ => rfl⟩

/-! ### Claim C9 -/

/-- C9 counterexample: allocating 10 then 15 then 1 bytes through
arena_alloc (default alignment 8, region base 16) yields three records
with sizes 10, 15, 1 but offsets 0, 16, 32 — not the offsets 0, 10, 25
stated by the claim, because each allocation start is padded to the
default alignment first. -/
theorem tracker_example_offsets_are_padded :
    (runOps (some (arena16 64)) c9ops).map
        (fun a => a.head_allocation.map (fun r => (r.index, r.size)))
      = some [(0, 10), (16, 15), (32, 1)] ∧
    ([(0, 10), (16, 15), (32, 1)] : List (Nat × Nat)) ≠ [(0, 10), (10, 15), (25, 1)] :=
  ⟨rfl, by decide⟩

/-- C9 (amended): with debug tracking, over any clear-free call sequence
the record list grows only at the tail, by exactly one record per
successful allocation (so its length equals the number of successful
allocations since creation or the last clear, and the unsigned long
counter equals that length modulo 2 ^ 64); each successful allocation
appends the record carrying exactly its own padded offset, requested size
and returned address; creation and clear leave an empty tracker; and the
concrete run allocating 10, 15, 1 bytes from a fresh arena at the
8-aligned base 16 yields exactly 3 records, in order, with sizes
10, 15, 1 and offsets 0, 16, 32. -/
theorem tracker_matches_allocations :
    (∀ (ops : List ArenaOp) (a a1 : Arena), hasClear ops = false →
       runOps (some a) ops = some a1 →
       (∃ t, a1.head_allocation = a.head_allocation ++ t ∧
         t.length = countSuccess (some a) ops) ∧
       (a.allocations = a.head_allocation.length % W →
         a1.allocations = a1.head_allocation.length % W)) ∧
    (∀ (a : Arena) (sz al : Nat) (x : Option Arena) (p : Nat),
       a.index < W → sz < W →
       arena_alloc_aligned (some a) sz al = (x, some p) →
       x = some { a with
         index := ((arena_padded a al).index + sz) % W,
         allocations := (a.allocations + 1) % W,
         head_allocation := a.head_allocation ++
           [{ index := (arena_padded a al).index, size := sz,
              pointer := (a.region + (arena_padded a al).index) % W }] } ∧
       p = (a.region + (arena_padded a al).index) % W) ∧
    (∀ (b : Bool) (r : Nat) (m : Nat → Nat) (s : Nat) (a : Arena),
       arena_create b r m s = some a →
       a.head_allocation = [] ∧ a.allocations = 0) ∧
    (∀ (a b : Arena), arena_clear (some a) = some b →
       b.head_allocation = [] ∧ b.allocations = 0) ∧
    ((runOps (some (arena16 64)) c9ops).map
        (fun a => (a.allocations,
          a.head_allocation.map (fun r => (r.index, r.size, r.pointer))))
      = some (3, [(0, 10, 16), (16, 15, 32), (32, 1, 48)]) ∧
     countSuccess (some (arena16 64)) c9ops = 3) := by
  refine ⟨fun ops a a1 hnc hrun => runOps_tracker ops a a1 hnc hrun,
    fun a sz al x p hI hszW h => ?_, fun b r m s a h => ?_, fun a b h => ?_, rfl, rfl⟩
  · obtain ⟨hp, hx, -, -, -⟩ := alloc_aligned_success_char a sz al x p hI hszW h
    exact ⟨hx, hp⟩
  · unfold arena_create at h
    by_cases h1 : s = 0
    · rw [if_pos h1] at h
      exact absurd h (by simp)
    · rw [if_neg h1] at h
      by_cases h2 : b = false
      · rw [if_pos h2] at h
        exact absurd h (by simp)
      · rw [if_neg h2] at h
        by_cases h3 : r = 0
        · rw [if_pos h3] at h
          exact absurd h (by simp)
        · rw [if_neg h3] at h
          have := Option.some_inj.mp h
          rw [← this]
          exact ⟨rfl, rfl⟩
  · have hb := Option.some_inj.mp h
    rw [← hb]
    exact ⟨rfl, rfl⟩

/-- Witness for the amended C9: one 1-byte allocation against a fresh
capacity-8 arena grows the tracker from empty to one record, and the
counter equals the new length. -/
theorem tracker_matches_allocations_witness :
    (∃ t, (arena16idx1 8).head_allocation = (arena16 8).head_allocation ++ t ∧
      t.length = countSuccess (some (arena16 8)) [ArenaOp.alloc 1]) ∧
    (arena16idx1 8).allocations = (arena16idx1 8).head_allocation.length % W := by
  have h := tracker_matches_allocations.1 [ArenaOp.alloc 1] (arena16 8) (arena16idx1 8)
    rfl rfl
  exact ⟨h.1, h.2 (by decide)⟩

/-! ### Claim C10 -/

/-- C10: arena_copy modifies only dest's region contents and dest's
cursor: dest's tracker (counter and record list), dest's region pointer
and capacity are unchanged, and src is not written to at all. -/
theorem arena_copy_frame (d s : Arena) (x y : Option Arena) (n : Nat)
    (h : arena_copy (some d) (some s) = (x, y, n)) :
    y = some s ∧
    ∃ d1 : Arena, x = some d1 ∧ d1.allocations = d.allocations ∧
      d1.head_allocation = d.head_allocation ∧
      d1.region = d.region ∧ d1.size = d.size := by
  rw [show arena_copy (some d) (some s) =
      (some { d with
        mem := fun i => if i < if s.index < d.size then s.index else d.size
          then s.mem i else d.mem i,
        index := if s.index < d.size then s.index else d.size },
       some s,
       if s.index < d.size then s.index else d.size) from rfl,
    Prod.mk.injEq, Prod.mk.injEq] at h
  obtain ⟨h1, h2, h3⟩ := h
  exact ⟨h2.symm, _, h1.symm, rfl, rfl, rfl, rfl⟩

/-- Witness for C10 at the concrete copy of 2 bytes from sw into dw. -/
theorem arena_copy_frame_witness :
    some sw = some sw ∧
    ∃ d1 : Arena, some d1w = some d1 ∧ d1.allocations = dw.allocations ∧
      d1.head_allocation = dw.head_allocation ∧
      d1.region = dw.region ∧ d1.size = dw.size :=
  arena_copy_frame dw sw (some d1w) (some sw) 2 rfl
